import Mathlib

/-!
Verification of the Token-Onliner repository (src/bot.py).

The development shallowly embeds the parts of bot.py the claims are about:

* `DiscordClient` (bot.py lines 114-289): the per-token connection state
  machine driven by websocket callbacks.  Its mutable fields become a Lean
  structure; each callback (`on_open`, `on_message`, `on_close`), the
  heartbeat loop body and the `stop` method become pure state transformers.
* The `connect` reconnect loop (bot.py lines 131-176) together with the
  callbacks is modelled as a labelled transition system `stepSession` over
  `SessionState`, which pairs the client record with the control position of
  the loop (`Phase`) and a log of externally observable actions (sleeps,
  gave-up events, new connection attempts).  Timestamps are naturals in
  milliseconds; the Python comparison `total_seconds() > (interval/1000)*3`
  is the millisecond comparison `now - last > 3 * interval` exactly.
* `OnlineManager.stop_all_clients` (bot.py lines 389-403).
* `extract_tokens` (bot.py lines 462-471) over a small Python-value type.
* `DebugWebhookManager.send_debug` (bot.py lines 29-78); the attempt loop is
  embedded with an explicit environment giving the outcome of each network
  post, and the catch-all `except Exception` handler is made visible by
  letting the try-block return `Except` and the loop absorb every `error`.
-/

namespace TokenOnliner

/-- The `data.user` object stored by the READY handler (bot.py line 254). -/
structure UserData where
  id : String
  username : String
  discriminator : String
deriving DecidableEq, Repr

/-- Mutable fields of `DiscordClient.__init__` (bot.py lines 115-126).
`ws_sock_connected` models the Python expression
`self.ws and self.ws.sock and self.ws.sock.connected` used by the heartbeat
loop: it is false while `ws` is `None` and after the transport closed. -/
structure DiscordClient where
  token : String
  token_index : Nat
  heartbeat_interval : Option Nat := none
  should_stop : Bool := false
  connected : Bool := false
  ws_sock_connected : Bool := false
  last_heartbeat : Option Nat := none
  user_data : Option UserData := none
  reconnect_attempts : Nat := 0
  max_reconnect_attempts : Nat := 5
deriving DecidableEq, Repr

/-- Python truthiness of an optional integer: `None` and `0` are falsy. -/
def truthyNat : Option Nat → Bool
  | none => false
  | some n => n != 0

/-- `DiscordClient.is_healthy` (bot.py lines 186-196).  The Python guard
`if self.last_heartbeat and self.heartbeat_interval:` runs the staleness
check only when `last_heartbeat` is set and `heartbeat_interval` is truthy
(not `None` and nonzero); otherwise the method returns `True`. -/
def DiscordClient.is_healthy (c : DiscordClient) (now : Nat) : Bool :=
  if !c.connected || c.should_stop then false
  else
    match c.last_heartbeat, c.heartbeat_interval with
    | some last, some ivl =>
        if ivl == 0 then true
        else if now - last > 3 * ivl then false else true
    | _, _ => true

/-- `DiscordClient.stop` (bot.py lines 178-184): sets the stop flag, clears
`connected` and closes the websocket (so its socket is no longer
connected). -/
def DiscordClient.stop (c : DiscordClient) : DiscordClient :=
  { c with should_stop := true, connected := false, ws_sock_connected := false }

/-- Continuation condition of the heartbeat loop (bot.py lines 208-209). -/
def DiscordClient.heartbeatCond (c : DiscordClient) : Bool :=
  truthyNat c.heartbeat_interval && c.ws_sock_connected && !c.should_stop

/-- `DiscordClient.on_open` (bot.py lines 198-204): the transport is open,
`connected` becomes true and `reconnect_attempts` is reset to 0. -/
def DiscordClient.on_open (c : DiscordClient) : DiscordClient :=
  { c with connected := true, ws_sock_connected := true, reconnect_attempts := 0 }

/-- One iteration of the heartbeat loop body (bot.py lines 210-213): when the
continuation condition holds, a heartbeat frame is sent and
`last_heartbeat` is stamped with the current time. -/
def DiscordClient.heartbeatTick (c : DiscordClient) (now : Nat) : DiscordClient :=
  if c.heartbeatCond then { c with last_heartbeat := some now } else c

/-- The inbound messages `on_message` distinguishes (bot.py lines 218-273).
`helloMalformed` is an op-10 frame whose `d` lacks `heartbeat_interval`
(the lookup raises and is caught); `unparseable` is a frame that fails
`json.loads` (caught by the `JSONDecodeError` handler). -/
inductive GatewayMsg where
  | hello (interval : Nat)
  | helloMalformed
  | ready (user : UserData)
  | heartbeatAck
  | unparseable
  | other
deriving DecidableEq, Repr

/-- `DiscordClient.on_message` (bot.py lines 218-273) as a state transformer.
A hello stores the interval (the heartbeat thread spawn and identify send
are side effects with no client-field change); READY stores the user; a
heartbeat ACK is a no-op; malformed and unparseable frames are caught by
the handlers at lines 270-273 and leave every field unchanged. -/
def DiscordClient.on_message (c : DiscordClient) (m : GatewayMsg) : DiscordClient :=
  match m with
  | .hello ivl => { c with heartbeat_interval := some ivl }
  | .ready u => { c with user_data := some u }
  | _ => c

/-- `DiscordClient.on_close` (bot.py lines 280-289): clears `connected`;
the transport socket is down. -/
def DiscordClient.on_close (c : DiscordClient) : DiscordClient :=
  { c with connected := false, ws_sock_connected := false }

/-- Control position inside `DiscordClient.connect` (bot.py lines 131-176):
at the `while` loop head, inside `run_forever`, sleeping before a retry,
or returned from `connect`. -/
inductive Phase where
  | atLoopHead
  | running
  | backoffSleep
  | done
deriving DecidableEq, Repr

/-- Externally observable actions of the connect loop:  entering a new
connection attempt (a fresh `WebSocketApp` plus `run_forever`, line 140),
the reconnect sleep at line 155, the fixed 10s sleep at line 174, the
gave-up report at lines 157-163, the disconnect report of `on_close`
(lines 284-289) and the error report of the `except` branch
(lines 167-169). -/
inductive Action where
  | connectingStart
  | backoffWait (secs : Nat)
  | errorWait (secs : Nat)
  | gaveUp
  | disconnectedEvent
  | connectErrorEvent
deriving DecidableEq, Repr

/-- `wait_time = min(30, 5 * self.reconnect_attempts)` (bot.py line 153). -/
def backoffDelay (n : Nat) : Nat := min 30 (5 * n)

/-- Full per-session state: the client record, the control position of the
connect loop, and the log of observable actions. -/
structure SessionState where
  client : DiscordClient
  phase : Phase
  log : List Action
deriving DecidableEq, Repr

/-- Events driving one session.  `loopHead` evaluates the `while` condition
(line 136); `wsOpen`, `wsMsg` and `hbTick` fire while `run_forever` runs;
`connEnd` is `run_forever` returning after the transport closed (the
`on_close` callback plus the loop tail, lines 149-164); `connErr` is the
`except` branch (lines 166-176, with the transport torn down by then);
`wakeup` ends a backoff sleep; `stopReq` is `stop()` called from another
thread. -/
inductive SessionEvent where
  | loopHead
  | wsOpen
  | wsMsg (m : GatewayMsg)
  | hbTick (now : Nat)
  | connEnd
  | connErr
  | wakeup
  | stopReq
deriving DecidableEq, Repr

/-- One transition of the session, translated from bot.py lines 131-176 and
the callbacks.  Events not enabled at the current phase leave the state
unchanged. -/
def stepSession (s : SessionState) : SessionEvent → SessionState
  | .stopReq => { s with client := s.client.stop }
  | .loopHead =>
      if s.phase = .atLoopHead then
        if s.client.should_stop = true ∨
            s.client.reconnect_attempts ≥ s.client.max_reconnect_attempts then
          { s with phase := .done }
        else
          { s with phase := .running, log := s.log ++ [.connectingStart] }
      else s
  | .wsOpen =>
      if s.phase = .running then { s with client := s.client.on_open } else s
  | .wsMsg m =>
      if s.phase = .running then { s with client := s.client.on_message m } else s
  | .hbTick now =>
      if s.phase = .running then { s with client := s.client.heartbeatTick now } else s
  | .connEnd =>
      if s.phase = .running then
        if s.client.should_stop = true then
          { s with client := s.client.on_close, phase := .atLoopHead }
        else if s.client.reconnect_attempts + 1 < s.client.max_reconnect_attempts then
          { client :=
              { s.client.on_close with
                reconnect_attempts := s.client.reconnect_attempts + 1 }
            phase := .backoffSleep
            log := s.log ++ [.disconnectedEvent,
              .backoffWait (backoffDelay (s.client.reconnect_attempts + 1))] }
        else
          { client :=
              { s.client.on_close with
                reconnect_attempts := s.client.reconnect_attempts + 1 }
            phase := .done
            log := s.log ++ [.disconnectedEvent, .gaveUp] }
      else s
  | .connErr =>
      if s.phase = .running then
        if s.client.should_stop = true then
          { s with
            client := s.client.on_close
            phase := .atLoopHead
            log := s.log ++ [.connectErrorEvent] }
        else if s.client.reconnect_attempts + 1 < s.client.max_reconnect_attempts then
          { client :=
              { s.client.on_close with
                reconnect_attempts := s.client.reconnect_attempts + 1 }
            phase := .backoffSleep
            log := s.log ++ [.connectErrorEvent, .errorWait 10] }
        else
          { client :=
              { s.client.on_close with
                reconnect_attempts := s.client.reconnect_attempts + 1 }
            phase := .done
            log := s.log ++ [.connectErrorEvent] }
      else s
  | .wakeup =>
      if s.phase = .backoffSleep then { s with phase := .atLoopHead } else s

/-- A freshly constructed client (`DiscordClient.__init__`). -/
def initClient (token : String) (idx : Nat) : DiscordClient :=
  { token := token, token_index := idx }

/-- Entry of `connect` (bot.py lines 133-134) on a fresh client, positioned
at the loop head. -/
def initSession : SessionState :=
  { client := { initClient "" 1 with should_stop := false, connected := false }
    phase := .atLoopHead
    log := [] }

/-- State of the session after a list of events, starting from a fresh
client entering `connect`. -/
def runSession (evs : List SessionEvent) : SessionState :=
  evs.foldl stepSession initSession

/-- Number of connection attempts recorded in the log. -/
def countConnecting (s : SessionState) : Nat :=
  s.log.count .connectingStart

/-- The fields of `OnlineManager` the stop path touches (bot.py
lines 293-299). -/
structure OnlineManager where
  clients : List DiscordClient
  should_stop : Bool := false
deriving DecidableEq, Repr

/-- `OnlineManager.stop_all_clients` (bot.py lines 389-403): sets the
manager stop flag and calls `stop()` on every client. -/
def OnlineManager.stop_all_clients (m : OnlineManager) : OnlineManager :=
  { clients := m.clients.map DiscordClient.stop, should_stop := true }

/-- A Python value as found inside the configuration dictionary. -/
inductive PyVal where
  | str (s : String)
  | int (n : Int)
  | bool (b : Bool)
  | null
  | list (xs : List PyVal)
deriving Repr

/-- Dictionary lookup: `config["tokens"]` when `"tokens" in config`. -/
def lookupKey (k : String) (cfg : List (String × PyVal)) : Option PyVal :=
  (cfg.find? (fun p => p.1 == k)).map (·.2)

/-- `extract_tokens` (bot.py lines 462-471): when the `tokens` key holds a
list, walk it appending `token.strip()` for every string entry whose
stripped length exceeds 20; otherwise return the empty list. -/
def extract_tokens (cfg : List (String × PyVal)) : List String :=
  match lookupKey "tokens" cfg with
  | some (.list xs) =>
      xs.foldl (fun acc t =>
        match t with
        | .str s => if s.trim.length > 20 then acc ++ [s.trim] else acc
        | _ => acc) []
  | _ => []

/-- The description of `extract_tokens` in claim C9, written independently with
`List.filterMap`: exactly the string entries whose stripped form is longer
than 20 characters, each stripped, in order; anything else is dropped, and
a missing or non-list `tokens` key yields `[]`. -/
def claimTokens (cfg : List (String × PyVal)) : List String :=
  match lookupKey "tokens" cfg with
  | some (.list xs) =>
      xs.filterMap (fun t =>
        match t with
        | .str s => if s.trim.length > 20 then some s.trim else none
        | _ => none)
  | _ => []

/-- Outcome of one `requests.post` attempt inside `send_debug` (bot.py
lines 40-78), as supplied by the network environment: the post raised, the
response was 204, the response was 429 (with flags for whether
`response.json()` decodes and whether the `retry_after` value is a number
`time.sleep` accepts), or some other status code. -/
inductive AttemptOutcome where
  | raised (e : String)
  | resp204
  | resp429 (jsonDecodes : Bool) (retryAfterNumeric : Bool)
  | respOther (code : Nat)
deriving DecidableEq, Repr

/-- The try-block of one loop iteration of `send_debug` (bot.py
lines 41-73).  `Except.error` is an exception raised inside the block
(`requests.post`, `response.json()` or `time.sleep` on a bad value);
`.ok true` is the 204 early return; `.ok false` falls through to the next
iteration (the 429 continue, or any other status). -/
def sendDebugTry : AttemptOutcome → Except String Bool
  | .raised e => .error e
  | .resp204 => .ok true
  | .resp429 false _ => .error "response.json decode failure"
  | .resp429 true false => .error "time.sleep argument TypeError"
  | .resp429 true true => .ok false
  | .respOther _ => .ok false

/-- The `for attempt in range(self.max_retries)` loop of `send_debug`
(bot.py lines 40-78), counting the post attempts performed.  The
`except Exception` handler at lines 75-78 catches every `error` from the
try-block, logs, sleeps and moves to the next iteration; a 204 returns. -/
def send_debug_loop (env : Nat → AttemptOutcome) : Nat → Nat → Nat
  | _, 0 => 0
  | i, rem + 1 =>
      match sendDebugTry (env i) with
      | .ok true => 1
      | .ok false => 1 + send_debug_loop env (i + 1) rem
      | .error _ => 1 + send_debug_loop env (i + 1) rem

/-- `DebugWebhookManager.__init__` (bot.py lines 29-33): `enabled` is the
Python truthiness of the URL. -/
structure DebugWebhookManager where
  webhook_url : Option String
  enabled : Bool
  max_retries : Nat
  retry_delay : Nat
deriving DecidableEq, Repr

/-- Construct the manager from an optional URL as `__init__` does. -/
def DebugWebhookManager.make (url : Option String) : DebugWebhookManager :=
  { webhook_url := url
    enabled := (match url with
      | none => false
      | some s => s ≠ "")
    max_retries := 3
    retry_delay := 2 }

/-- `DebugWebhookManager.send_debug` (bot.py lines 35-78).  The result is
`Except`: an `error` would be an exception escaping to the caller, an `ok`
carries the number of post attempts performed.  When not enabled the
method returns immediately (line 37-38) with no attempt. -/
def DebugWebhookManager.send_debug (w : DebugWebhookManager)
    (env : Nat → AttemptOutcome) : Except String Nat :=
  if !w.enabled then .ok 0
  else .ok (send_debug_loop env 0 w.max_retries)

/-! ### Field-preservation lemmas for the client callbacks -/

@[simp] lemma on_message_should_stop (c : DiscordClient) (m : GatewayMsg) :
    (c.on_message m).should_stop = c.should_stop := by
  cases m <;> rfl

@[simp] lemma on_message_connected (c : DiscordClient) (m : GatewayMsg) :
    (c.on_message m).connected = c.connected := by
  cases m <;> rfl

@[simp] lemma on_message_attempts (c : DiscordClient) (m : GatewayMsg) :
    (c.on_message m).reconnect_attempts = c.reconnect_attempts := by
  cases m <;> rfl

@[simp] lemma on_message_max (c : DiscordClient) (m : GatewayMsg) :
    (c.on_message m).max_reconnect_attempts = c.max_reconnect_attempts := by
  cases m <;> rfl

@[simp] lemma heartbeatTick_should_stop (c : DiscordClient) (now : Nat) :
    (c.heartbeatTick now).should_stop = c.should_stop := by
  unfold DiscordClient.heartbeatTick; split <;> rfl

@[simp] lemma heartbeatTick_connected (c : DiscordClient) (now : Nat) :
    (c.heartbeatTick now).connected = c.connected := by
  unfold DiscordClient.heartbeatTick; split <;> rfl

@[simp] lemma heartbeatTick_attempts (c : DiscordClient) (now : Nat) :
    (c.heartbeatTick now).reconnect_attempts = c.reconnect_attempts := by
  unfold DiscordClient.heartbeatTick; split <;> rfl

@[simp] lemma heartbeatTick_max (c : DiscordClient) (now : Nat) :
    (c.heartbeatTick now).max_reconnect_attempts = c.max_reconnect_attempts := by
  unfold DiscordClient.heartbeatTick; split <;> rfl

@[simp] lemma count_non_connecting_pair (l : List Action) (a b : Action)
    (ha : a ≠ .connectingStart) (hb : b ≠ .connectingStart) :
    (l ++ [a, b]).count Action.connectingStart = l.count Action.connectingStart := by
  cases a <;> cases b <;>
    simp_all [List.count_append, List.count_cons, List.count_nil]

@[simp] lemma count_non_connecting_one (l : List Action) (a : Action)
    (ha : a ≠ .connectingStart) :
    (l ++ [a]).count Action.connectingStart = l.count Action.connectingStart := by
  cases a <;>
    simp_all [List.count_append, List.count_cons, List.count_nil]

/-! ### Reachability invariant -/

/-- Invariant of every reachable session state: the attempt bound is the
default 5, any state still inside the loop has fewer than 5 attempts, and
while the transport is open the counter is 0 (it was reset by
`on_open`). -/
def GoodState (s : SessionState) : Prop :=
  s.client.max_reconnect_attempts = 5 ∧
  (s.phase ≠ .done → s.client.reconnect_attempts < 5) ∧
  (s.client.connected = true → s.client.reconnect_attempts = 0)

lemma goodState_init : GoodState initSession := by
  refine ⟨rfl, fun _ => ?_, fun h => ?_⟩ <;> simp [initSession, initClient] at *

lemma goodState_step (s : SessionState) (e : SessionEvent) (hg : GoodState s) :
    GoodState (stepSession s e) := by
  obtain ⟨h5, hlt, hc0⟩ := hg
  cases e <;>
    simp only [stepSession] <;>
    (try split_ifs) <;>
    refine ⟨?_, fun hp => ?_, fun hcn => ?_⟩ <;>
    simp_all [GoodState, DiscordClient.stop, DiscordClient.on_open,
      DiscordClient.on_close]

lemma goodState_run (evs : List SessionEvent) : GoodState (runSession evs) := by
  unfold runSession
  induction evs using List.reverseRecOn with
  | nil => exact goodState_init
  | append_singleton l e ih =>
      rw [List.foldl_append]
      exact goodState_step _ e ih

/-! ### Absorption lemmas -/

/-- Once `connect` has returned (`done`), no event changes the control
position or the action log: the loop is not running anymore. -/
lemma stepSession_done (s : SessionState) (e : SessionEvent)
    (h : s.phase = .done) :
    (stepSession s e).phase = .done ∧ (stepSession s e).log = s.log := by
  cases e <;> simp only [stepSession] <;> (try split_ifs) <;> simp_all

lemma foldl_done (more : List SessionEvent) (s : SessionState)
    (h : s.phase = .done) :
    (more.foldl stepSession s).phase = .done ∧
    (more.foldl stepSession s).log = s.log := by
  induction more generalizing s with
  | nil => exact ⟨h, rfl⟩
  | cons e rest ih =>
      obtain ⟨h1, h2⟩ := stepSession_done s e h
      obtain ⟨h3, h4⟩ := ih (stepSession s e) h1
      exact ⟨h3, h4.trans h2⟩

/-- Once the stop flag is set it stays set and no event records a further
connection attempt. -/
lemma stepSession_stopped (s : SessionState) (e : SessionEvent)
    (h : s.client.should_stop = true) :
    (stepSession s e).client.should_stop = true ∧
    countConnecting (stepSession s e) = countConnecting s := by
  cases e <;>
    simp only [stepSession, countConnecting] <;>
    (try split_ifs) <;>
    simp_all [DiscordClient.stop, DiscordClient.on_open, DiscordClient.on_close]

lemma foldl_stopped (more : List SessionEvent) (s : SessionState)
    (h : s.client.should_stop = true) :
    countConnecting (more.foldl stepSession s) = countConnecting s := by
  induction more generalizing s with
  | nil => rfl
  | cons e rest ih =>
      obtain ⟨h1, h2⟩ := stepSession_stopped s e h
      exact (ih (stepSession s e) h1).trans h2

/-! ### Claim C1: the health predicate -/

/-- Input history for the C1 counterexample: the connection opens, a hello
carries interval 41250 ms, one heartbeat is sent at time 1000 ms, then a
second hello carries interval 0. -/
def c1History : List SessionEvent :=
  [.loopHead, .wsOpen, .wsMsg (.hello 41250), .hbTick 1000, .wsMsg (.hello 0)]

/-- The health predicate exactly as claim C1 words it: the state is Ready
(the connected flag), stop_requested is false, and either no heartbeat has
been sent yet or the time since the last one is at most
3 * heartbeat_interval_ms. -/
def claimHealthy (c : DiscordClient) (now : Nat) : Bool :=
  decide (c.connected = true ∧ c.should_stop = false ∧
    (c.last_heartbeat = none ∨
      now - c.last_heartbeat.getD 0 ≤ 3 * c.heartbeat_interval.getD 0))

/-- Claim C1, counterexample: after the input history `c1History` the code
reports healthy while the claimed predicate is false.  A heartbeat was sent
at 1000 ms, the second hello lowered the interval to 0, and at time 1001 ms
the elapsed 1 ms exceeds 3 * 0, yet `is_healthy` is true because the Python
truthiness guard skips the staleness check when the interval is 0. -/
theorem c1_counterexample :
    (runSession c1History).client.is_healthy 1001 = true ∧
    claimHealthy (runSession c1History).client 1001 = false := by
  decide

/-- Claim C1 (amended): `is_healthy` is true iff the state is Ready
(connected) and stop_requested is false and either no heartbeat has been
sent yet, or `heartbeat_interval` is unset or zero, or the time since
`last_heartbeat` is at most 3 times `heartbeat_interval_ms`; in particular
`is_healthy` is false whenever the state is not Ready. -/
theorem c1_is_healthy_amended (c : DiscordClient) (now : Nat) :
    (c.is_healthy now = true ↔
      (c.connected = true ∧ c.should_stop = false ∧
        (c.last_heartbeat = none ∨ c.heartbeat_interval = none ∨
          c.heartbeat_interval = some 0 ∨
          ∃ last ivl, c.last_heartbeat = some last ∧
            c.heartbeat_interval = some ivl ∧ now - last ≤ 3 * ivl))) ∧
    (c.connected = false → c.is_healthy now = false) := by
  constructor
  · obtain ⟨tok, idx, hb, stop, conn, sockc, lastHb, ud, ra, mx⟩ := c
    cases conn with
    | false => simp [DiscordClient.is_healthy]
    | true =>
      cases stop with
      | true => simp [DiscordClient.is_healthy]
      | false =>
        rcases lastHb with _ | l
        · simp [DiscordClient.is_healthy]
        · rcases hb with _ | i
          · simp [DiscordClient.is_healthy]
          · by_cases h0 : i = 0
            · subst h0
              simp [DiscordClient.is_healthy]
            · by_cases hgt : now - l > 3 * i
              · simp [DiscordClient.is_healthy, h0, hgt]
                omega
              · simp [DiscordClient.is_healthy, h0, hgt]
                omega
  · intro h
    simp [DiscordClient.is_healthy, h]

/-- Witness for the second part of the amended C1 theorem at a concrete
non-Ready client. -/
theorem c1_witness : (initClient "" 1).is_healthy 0 = false :=
  (c1_is_healthy_amended (initClient "" 1) 0).2 (by decide)

/-! ### Claim C2: the reconnect scenario at the attempt limit -/

/-- History reaching reconnect_attempts = 3 inside a fresh connection
attempt, with stop not requested: three close-and-retry cycles. -/
def c2base : List SessionEvent :=
  [.loopHead, .connEnd, .wakeup, .loopHead, .connEnd, .wakeup, .loopHead,
   .connEnd, .wakeup, .loopHead]

/-- History reaching reconnect_attempts = 4 inside a connection attempt. -/
def c2ext : List SessionEvent := c2base ++ [.connEnd, .wakeup, .loopHead]

/-- Claim C2, counterexample: at reconnect_attempts = 4 (max 5) with stop
not requested, a transport close makes the loop increment to 5 and give up
immediately: the session is terminal with a gave-up event, there is no
backoff wait and no re-entry into Connecting with attempts = 5. -/
theorem c2_counterexample :
    (runSession c2ext).client.reconnect_attempts = 4 ∧
    (runSession c2ext).phase = Phase.running ∧
    (runSession c2ext).client.should_stop = false ∧
    (stepSession (runSession c2ext) .connEnd).phase = Phase.done ∧
    (stepSession (runSession c2ext) .connEnd).phase ≠ Phase.backoffSleep ∧
    (stepSession (runSession c2ext) .connEnd).client.reconnect_attempts = 5 ∧
    (stepSession (runSession c2ext) .connEnd).log.count Action.gaveUp = 1 ∧
    countConnecting (stepSession (runSession c2ext) .connEnd) =
      countConnecting (runSession c2ext) := by
  decide

/-- Claim C2 (amended): with max_attempts = 5, a transport close while
stop_requested is false and reconnect_attempts = 3 sends the session
through Closed, a backoff wait of min(30, 5*4) = 20 s, then into Connecting
with reconnect_attempts = 4; the subsequent failure is terminal Closed with
a gave-up event. -/
theorem c2_scenario_amended :
    (runSession c2base).client.reconnect_attempts = 3 ∧
    (runSession c2base).phase = Phase.running ∧
    (runSession c2base).client.should_stop = false ∧
    (runSession (c2base ++ [.connEnd])).phase = Phase.backoffSleep ∧
    (runSession (c2base ++ [.connEnd])).client.reconnect_attempts = 4 ∧
    (runSession (c2base ++ [.connEnd])).log.getLast? =
      some (Action.backoffWait 20) ∧
    (runSession (c2base ++ [.connEnd, .wakeup, .loopHead])).phase =
      Phase.running ∧
    (runSession (c2base ++
      [.connEnd, .wakeup, .loopHead])).client.reconnect_attempts = 4 ∧
    (runSession (c2base ++ [.connEnd, .wakeup, .loopHead, .connEnd])).phase =
      Phase.done ∧
    (runSession (c2base ++
      [.connEnd, .wakeup, .loopHead, .connEnd])).client.reconnect_attempts = 5 ∧
    (runSession (c2base ++
      [.connEnd, .wakeup, .loopHead, .connEnd])).log.count Action.gaveUp = 1 := by
  decide

/-! ### Claim C3: reset of the attempt counter -/

lemma attempts_reset_step (s : SessionState) (e : SessionEvent)
    (hg : GoodState s) :
    ((s.client.connected = false ∧
        (stepSession s e).client.connected = true) →
      (stepSession s e).client.reconnect_attempts = 0) ∧
    (¬(s.client.connected = false ∧
        (stepSession s e).client.connected = true) →
      s.client.reconnect_attempts ≤
        (stepSession s e).client.reconnect_attempts) := by
  obtain ⟨h5, hlt, hc0⟩ := hg
  cases e <;>
    simp only [stepSession] <;>
    (try split_ifs) <;>
    constructor <;>
    simp_all [DiscordClient.stop, DiscordClient.on_open,
      DiscordClient.on_close]

/-- Claim C3: along every input history, `reconnect_attempts` is reset to 0
on every transition into Ready (the connected flag turning true, performed
by `on_open`), and at every step that is not such a transition the counter
is non-decreasing. -/
theorem c3_reset_on_ready (evs : List SessionEvent) (e : SessionEvent) :
    (((runSession evs).client.connected = false ∧
        (stepSession (runSession evs) e).client.connected = true) →
      (stepSession (runSession evs) e).client.reconnect_attempts = 0) ∧
    (¬((runSession evs).client.connected = false ∧
        (stepSession (runSession evs) e).client.connected = true) →
      (runSession evs).client.reconnect_attempts ≤
        (stepSession (runSession evs) e).client.reconnect_attempts) :=
  attempts_reset_step (runSession evs) e (goodState_run evs)

/-- Witness for C3 at a concrete Ready transition. -/
theorem c3_witness :
    (stepSession (runSession [SessionEvent.loopHead])
      SessionEvent.wsOpen).client.reconnect_attempts = 0 :=
  (c3_reset_on_ready [SessionEvent.loopHead] SessionEvent.wsOpen).1 (by decide)

/-! ### Claim C4: malformed control frames -/

/-- Claim C4, counterexample: in an open session, a message that fails to
parse leaves the entire session state (client fields, loop position and
action log) unchanged and triggers no reconnect: the JSONDecodeError
handler at bot.py line 270 only logs. -/
theorem c4_counterexample :
    stepSession (runSession [SessionEvent.loopHead, SessionEvent.wsOpen])
      (SessionEvent.wsMsg GatewayMsg.unparseable) =
    runSession [SessionEvent.loopHead, SessionEvent.wsOpen] := by
  decide

/-- Claim C4 (amended): a malformed control frame — one that fails to
parse, or a hello without its interval field — is caught inside
`on_message`, logged, and otherwise ignored: the session state is unchanged
in every phase and the reconnect path is not triggered. -/
theorem c4_malformed_ignored (s : SessionState) :
    stepSession s (SessionEvent.wsMsg GatewayMsg.unparseable) = s ∧
    stepSession s (SessionEvent.wsMsg GatewayMsg.helloMalformed) = s := by
  constructor <;>
    · show (if s.phase = Phase.running then _ else s) = s
      split <;> rfl

/-! ### Claim C5: the backoff policy -/

/-- Claim C5: after a transport failure, with post-increment attempt count
n, 0 < n < 5, and stop not requested, the loop increments the counter to n
and sleeps backoffDelay n = min 30 (5 * n) seconds before re-entering
Connecting; that delay is non-decreasing in n and capped at 30; the
exception path sleeps a fixed 10 s instead. -/
theorem c5_backoff_policy (s : SessionState) (n : Nat)
    (hph : s.phase = Phase.running)
    (hstop : s.client.should_stop = false)
    (hmax : s.client.max_reconnect_attempts = 5)
    (hn : s.client.reconnect_attempts + 1 = n)
    (h0 : 0 < n) (h5 : n < 5) :
    (stepSession s .connEnd).client.reconnect_attempts = n ∧
    (stepSession s .connEnd).log =
      s.log ++ [Action.disconnectedEvent, Action.backoffWait (min 30 (5 * n))] ∧
    (stepSession s .connEnd).phase = Phase.backoffSleep ∧
    (∀ m, m ≤ n → backoffDelay m ≤ backoffDelay n) ∧
    backoffDelay n ≤ 30 ∧
    (stepSession s .connErr).log =
      s.log ++ [Action.connectErrorEvent, Action.errorWait 10] := by
  subst hn
  have hlt : s.client.reconnect_attempts + 1 < s.client.max_reconnect_attempts := by
    omega
  have hns : ¬(s.client.should_stop = true) := by
    rw [hstop]; exact Bool.false_ne_true
  have hstepEnd : stepSession s SessionEvent.connEnd =
      { client := { s.client.on_close with
          reconnect_attempts := s.client.reconnect_attempts + 1 }
        phase := Phase.backoffSleep
        log := s.log ++ [Action.disconnectedEvent,
          Action.backoffWait (backoffDelay (s.client.reconnect_attempts + 1))] } := by
    simp only [stepSession]
    rw [if_pos hph, if_neg hns, if_pos hlt]
  have hstepErr : stepSession s SessionEvent.connErr =
      { client := { s.client.on_close with
          reconnect_attempts := s.client.reconnect_attempts + 1 }
        phase := Phase.backoffSleep
        log := s.log ++ [Action.connectErrorEvent, Action.errorWait 10] } := by
    simp only [stepSession]
    rw [if_pos hph, if_neg hns, if_pos hlt]
  rw [hstepEnd, hstepErr]
  refine ⟨rfl, rfl, rfl, fun m hm => ?_, ?_, rfl⟩ <;>
    · simp only [backoffDelay]
      omega

/-- Witness for C5 at a concrete state with one failure. -/
theorem c5_witness :
    (stepSession (runSession [SessionEvent.loopHead])
      SessionEvent.connEnd).client.reconnect_attempts = 1 ∧
    (stepSession (runSession [SessionEvent.loopHead]) SessionEvent.connEnd).log =
      (runSession [SessionEvent.loopHead]).log ++
        [Action.disconnectedEvent, Action.backoffWait (min 30 (5 * 1))] ∧
    (stepSession (runSession [SessionEvent.loopHead])
      SessionEvent.connEnd).phase = Phase.backoffSleep ∧
    (∀ m, m ≤ 1 → backoffDelay m ≤ backoffDelay 1) ∧
    backoffDelay 1 ≤ 30 ∧
    (stepSession (runSession [SessionEvent.loopHead]) SessionEvent.connErr).log =
      (runSession [SessionEvent.loopHead]).log ++
        [Action.connectErrorEvent, Action.errorWait 10] :=
  c5_backoff_policy (runSession [SessionEvent.loopHead]) 1
    (by decide) (by decide) (by decide) (by decide) (by decide) (by decide)

/-! ### Claim C6: terminal state after the attempt limit -/

/-- History of five consecutive transport failures: the fifth close puts
the session in the terminal done phase with reconnect_attempts = 5. -/
def c6History : List SessionEvent :=
  [.loopHead, .connEnd, .wakeup, .loopHead, .connEnd, .wakeup, .loopHead,
   .connEnd, .wakeup, .loopHead, .connEnd, .wakeup, .loopHead, .connEnd]

/-- Claim C6: in any run, once `reconnect_attempts` has reached
`max_reconnect_attempts` the session is in the terminal done phase
(`connect` returned after the give-up branch), and no continuation of the
run ever records another connection attempt. -/
theorem c6_terminal_after_max (evs more : List SessionEvent)
    (h : (runSession evs).client.reconnect_attempts ≥
      (runSession evs).client.max_reconnect_attempts) :
    (runSession evs).phase = Phase.done ∧
    countConnecting (runSession (evs ++ more)) =
      countConnecting (runSession evs) := by
  obtain ⟨h5, hlt, _⟩ := goodState_run evs
  have hdone : (runSession evs).phase = Phase.done := by
    by_contra hne
    have := hlt hne
    omega
  refine ⟨hdone, ?_⟩
  unfold runSession at hdone ⊢
  rw [List.foldl_append]
  simp [countConnecting, (foldl_done more _ hdone).2]

/-- Witness for C6 after five failures, continued by further events. -/
theorem c6_witness :
    (runSession c6History).phase = Phase.done ∧
    countConnecting (runSession (c6History ++
      [SessionEvent.loopHead, SessionEvent.wsOpen])) =
      countConnecting (runSession c6History) :=
  c6_terminal_after_max c6History [SessionEvent.loopHead, SessionEvent.wsOpen]
    (by decide)

/-! ### Claim C7: stop_all leaves nothing Ready -/

/-- Claim C7: after `stop_all_clients`, the manager stop flag is set and
every client in the fleet — of any size, including zero — has
connected = false, should_stop = true, and a false heartbeat-loop
continuation condition. -/
theorem c7_stop_all (m : OnlineManager) :
    (m.stop_all_clients).should_stop = true ∧
    ∀ c, c ∈ (m.stop_all_clients).clients →
      c.connected = false ∧ c.should_stop = true ∧ c.heartbeatCond = false := by
  refine ⟨rfl, fun c hc => ?_⟩
  simp only [OnlineManager.stop_all_clients, List.mem_map] at hc
  obtain ⟨a, _, rfl⟩ := hc
  refine ⟨rfl, rfl, ?_⟩
  simp [DiscordClient.heartbeatCond, DiscordClient.stop]

/-- Witness for C7 on a one-client fleet. -/
theorem c7_witness :
    ((OnlineManager.mk [initClient "" 1] false).stop_all_clients).should_stop
        = true ∧
    ((initClient "" 1).stop.connected = false ∧
      (initClient "" 1).stop.should_stop = true ∧
      (initClient "" 1).stop.heartbeatCond = false) :=
  ⟨(c7_stop_all (OnlineManager.mk [initClient "" 1] false)).1,
   (c7_stop_all (OnlineManager.mk [initClient "" 1] false)).2
     ((initClient "" 1).stop) (by decide)⟩

/-! ### Claim C8: stop permanently suppresses reconnects -/

/-- Claim C8: once `should_stop` is true for a session, no continuation of
its run ever records another connection attempt: the stop flag is never
cleared and every loop-head check routes to the exit. -/
theorem c8_stop_permanent (evs more : List SessionEvent)
    (h : (runSession evs).client.should_stop = true) :
    countConnecting (runSession (evs ++ more)) =
      countConnecting (runSession evs) := by
  unfold runSession at h ⊢
  rw [List.foldl_append]
  exact foldl_stopped more _ h

/-- Witness for C8: stop requested at once, then further events. -/
theorem c8_witness :
    countConnecting (runSession ([SessionEvent.stopReq] ++
      [SessionEvent.loopHead, SessionEvent.wsOpen, SessionEvent.connEnd])) =
    countConnecting (runSession [SessionEvent.stopReq]) :=
  c8_stop_permanent [SessionEvent.stopReq]
    [SessionEvent.loopHead, SessionEvent.wsOpen, SessionEvent.connEnd]
    (by decide)

/-! ### Claim C9: token extraction -/

lemma extract_go (xs : List PyVal) :
    ∀ acc : List String,
      xs.foldl (fun acc t =>
        match t with
        | .str s => if s.trim.length > 20 then acc ++ [s.trim] else acc
        | _ => acc) acc
      = acc ++ xs.filterMap (fun t =>
          match t with
          | .str s => if s.trim.length > 20 then some s.trim else none
          | _ => none) := by
  induction xs with
  | nil => intro acc; simp
  | cons t rest ih =>
      intro acc
      cases t <;>
        simp only [List.foldl_cons, List.filterMap_cons, ih]
      split <;> simp [ih]

/-- Claim C9: `extract_tokens` returns exactly the string entries of the
tokens list whose whitespace-stripped form is longer than 20 characters,
each stripped, in their original order; non-string entries and short
strings are dropped, and a missing or non-list tokens key yields the empty
list — the statement equates the source translation with `claimTokens`,
the independent rendering of that description. -/
theorem c9_extract_tokens (cfg : List (String × PyVal)) :
    extract_tokens cfg = claimTokens cfg := by
  unfold extract_tokens claimTokens
  cases lookupKey "tokens" cfg with
  | none => rfl
  | some v => cases v <;> simp [extract_go]

/-! ### Claim C10: the debug webhook sender -/

lemma send_debug_loop_le (env : Nat → AttemptOutcome) :
    ∀ rem i : Nat, send_debug_loop env i rem ≤ rem := by
  intro rem
  induction rem with
  | zero => intro i; simp [send_debug_loop]
  | succ r ih =>
      intro i
      simp only [send_debug_loop]
      cases h : sendDebugTry (env i) with
      | ok b =>
          cases b with
          | false =>
              show 1 + send_debug_loop env (i + 1) r ≤ r + 1
              have := ih (i + 1); omega
          | true =>
              show 1 ≤ r + 1
              omega
      | error e =>
          show 1 + send_debug_loop env (i + 1) r ≤ r + 1
          have := ih (i + 1); omega

/-- Claim C10: `send_debug` never lets an exception escape to the caller
(every raise point is inside the catch-all handler, so the result is
always ok), performs at most max_retries = 3 post attempts, and with no
configured webhook URL (enabled false) performs none and returns at
once. -/
theorem c10_send_debug (url : Option String) (env : Nat → AttemptOutcome) :
    (∃ n, (DebugWebhookManager.make url).send_debug env = Except.ok n ∧ n ≤ 3) ∧
    (DebugWebhookManager.make none).send_debug env = Except.ok 0 ∧
    (DebugWebhookManager.make (some "")).send_debug env = Except.ok 0 := by
  refine ⟨?_, rfl, rfl⟩
  cases url with
  | none => exact ⟨0, rfl, by omega⟩
  | some s =>
      by_cases hs : s = ""
      · subst hs
        exact ⟨0, rfl, by omega⟩
      · refine ⟨send_debug_loop env 0 3, ?_, send_debug_loop_le env 3 0⟩
        simp [DebugWebhookManager.send_debug, DebugWebhookManager.make, hs]

end TokenOnliner
